import Mathlib

/-!
Verification of the stick-figure renderer in `src/main.py`.

The program has a single data class `Character` holding a 2D position,
an orientation angle in degrees, and a list of body-joint offsets, with
operations `move`, `rotate`, `get_position` and `draw`.  We embed it
shallowly: numbers become `Int` (Python's `%` on integers with a positive
modulus agrees with `Int.emod`), the mutable object becomes a structure
with each mutator returning the updated structure, and `draw` returns the
list of drawing commands it issues on the surface, wrapped in `Option`
(`none` models an uncaught IndexError, `some []` the silent no-op).
-/

/-- The `Character` class of `src/main.py`: position `(x, y)`, an
orientation angle in degrees, and the list of body-point offsets. -/
structure Character where
  x : Int
  y : Int
  orientation : Int
  body_points : List (Int × Int)
deriving Repr, DecidableEq

/-- The constructor `Character.__init__`: every argument is stored
unchanged (in particular the orientation argument is not normalized). -/
def Character.init (x y orientation : Int) (body_points : List (Int × Int)) :
    Character :=
  { x := x, y := y, orientation := orientation, body_points := body_points }

/-- The `move` method: `self.x += dx; self.y += dy`. -/
def Character.move (c : Character) (dx dy : Int) : Character :=
  { c with x := c.x + dx, y := c.y + dy }

/-- The `rotate` method: `self.orientation = (self.orientation + angle) % 360`. -/
def Character.rotate (c : Character) (angle : Int) : Character :=
  { c with orientation := (c.orientation + angle) % 360 }

/-- The `get_position` method: returns `(self.x, self.y)`. -/
def Character.get_position (c : Character) : Int × Int :=
  (c.x, c.y)

/-- One drawing call issued on the pygame surface: either
`pygame.draw.line(surface, color, p, q, width)` or
`pygame.draw.circle(surface, color, center, radius)`. -/
inductive DrawCmd where
  | line (color : Int × Int × Int) (p q : Int × Int) (width : Int)
  | circle (color : Int × Int × Int) (center : Int × Int) (radius : Int)
deriving Repr, DecidableEq

/-- Whether a drawing call is a line-draw call. -/
def DrawCmd.isLine : DrawCmd → Bool
  | .line _ _ _ _ => true
  | .circle _ _ _ => false

/-- Whether a drawing call is a circle-draw call. -/
def DrawCmd.isCircle : DrawCmd → Bool
  | .line _ _ _ _ => false
  | .circle _ _ _ => true

/-- The color argument of a drawing call. -/
def DrawCmd.colorOf : DrawCmd → Int × Int × Int
  | .line c _ _ _ => c
  | .circle c _ _ => c

/-- The center of a circle-draw call (the line endpoints are irrelevant
here; any value is returned for a line). -/
def DrawCmd.centerOf : DrawCmd → Int × Int
  | .line _ p _ _ => p
  | .circle _ p _ => p

/-- The i-th entry of the `points` comprehension in `draw`:
`(self.body_points[i][0] + self.x, self.body_points[i][1] + self.y)`;
`none` models an IndexError. -/
def Character.absPoint (c : Character) (i : Nat) : Option (Int × Int) :=
  (c.body_points.get? i).map (fun q => (q.1 + c.x, q.2 + c.y))

/-- The `draw` method of `Character`, as the list of drawing calls issued
on the surface.  The guard `not self.body_points or len(self.body_points) < 11`
returns with no calls; otherwise the `points` list is built by the
comprehension over `range(11)` and the ten body segments plus the eleven
joint circles are drawn.  `none` models an IndexError escaping `draw`. -/
def Character.draw (c : Character) (color : Int × Int × Int)
    (line_width point_radius : Int) : Option (List DrawCmd) :=
  if c.body_points.isEmpty ∨ c.body_points.length < 11 then some []
  else
    match (List.range 11).mapM c.absPoint with
    | some [p0, p1, p2, p3, p4, p5, p6, p7, p8, p9, p10] =>
        some ([DrawCmd.line color p0 p1 line_width,
               DrawCmd.line color p1 p2 line_width,
               DrawCmd.line color p3 p4 line_width,
               DrawCmd.line color p4 p5 line_width,
               DrawCmd.line color p0 p6 line_width,
               DrawCmd.line color p3 p6 line_width,
               DrawCmd.line color p6 p7 line_width,
               DrawCmd.line color p7 p8 line_width,
               DrawCmd.line color p6 p9 line_width,
               DrawCmd.line color p9 p10 line_width]
          ++ ([p0, p1, p2, p3, p4, p5, p6, p7, p8, p9, p10].map
                (fun p => DrawCmd.circle color p point_radius)))
    | _ => none

/-- The `draw` method as a state transformer: the Python method body
contains no assignment to any attribute of `self`, so the post-state is
the receiver itself, paired with the drawing calls issued. -/
def Character.drawS (c : Character) (color : Int × Int × Int)
    (line_width point_radius : Int) : Character × Option (List DrawCmd) :=
  (c, c.draw color line_width point_radius)

/-- The centers of the circle-draw calls of a trace, in order. -/
def circleCenters : List DrawCmd → List (Int × Int)
  | [] => []
  | DrawCmd.circle _ p _ :: rest => p :: circleCenters rest
  | DrawCmd.line _ _ _ _ :: rest => circleCenters rest

/-- The sample pose built in `main()`: the `body_points` list of the
example character. -/
def mainBodyPoints : List (Int × Int) :=
  [(-10, -30), (-20, -10), (-30, 5), (10, -30), (20, -10), (30, 5),
   (0, 0), (-5, 20), (-5, 40), (5, 20), (5, 40)]

/-- Joint-index pairs of the ten line segments as the specification lists
them: left shoulder–elbow, elbow–hand; right shoulder–elbow, elbow–hand;
left shoulder–waist, right shoulder–waist; waist–left knee, left knee–left
feet; waist–right knee, right knee–right feet. -/
def specSegments : List (Nat × Nat) :=
  [(0, 1), (1, 2), (3, 4), (4, 5), (0, 6), (3, 6), (6, 7), (7, 8), (6, 9), (9, 10)]

/-- The drawing calls exactly as §4.1 of the specification describes them:
ten line segments in the fixed topology between absolute joint positions
(position plus offset, componentwise), then a circle at each of the eleven
absolute joint positions, all in the same color. -/
def specDrawCalls (c : Character) (color : Int × Int × Int)
    (line_width point_radius : Int) : List DrawCmd :=
  let pt : Nat → Int × Int := fun i =>
    ((c.body_points.getD i (0, 0)).1 + c.x, (c.body_points.getD i (0, 0)).2 + c.y)
  (specSegments.map (fun s => DrawCmd.line color (pt s.1) (pt s.2) line_width))
    ++ ((List.range 11).map (fun i => DrawCmd.circle color (pt i) point_radius))

/-- A list of length at least eleven splits into eleven explicit heads and
a tail; the shorter shapes contradict the length bound by evaluation. -/
theorem List.exists_eleven_cons {α : Type} :
    ∀ (l : List α), 11 ≤ l.length →
      ∃ a0 a1 a2 a3 a4 a5 a6 a7 a8 a9 a10 t,
        l = a0 :: a1 :: a2 :: a3 :: a4 :: a5 :: a6 :: a7 :: a8 :: a9 :: a10 :: t
  | [], h => absurd h (by simp)
  | [_], h => absurd h (by simp)
  | [_, _], h => absurd h (by simp)
  | [_, _, _], h => absurd h (by simp)
  | [_, _, _, _], h => absurd h (by simp)
  | [_, _, _, _, _], h => absurd h (by simp)
  | [_, _, _, _, _, _], h => absurd h (by simp)
  | [_, _, _, _, _, _, _], h => absurd h (by simp)
  | [_, _, _, _, _, _, _, _], h => absurd h (by simp)
  | [_, _, _, _, _, _, _, _, _], h => absurd h (by simp)
  | [_, _, _, _, _, _, _, _, _, _], h => absurd h (by simp)
  | a0 :: a1 :: a2 :: a3 :: a4 :: a5 :: a6 :: a7 :: a8 :: a9 :: a10 :: t, _ =>
      ⟨a0, a1, a2, a3, a4, a5, a6, a7, a8, a9, a10, t, rfl⟩

/-- Evaluation of `draw` on a body-point list with eleven explicit heads:
the guard fails, the comprehension succeeds, and the full trace of ten
lines and eleven circles is produced from the first eleven offsets. -/
theorem draw_cons_eleven (x y o : Int) (a0 a1 a2 a3 a4 a5 a6 a7 a8 a9 a10 : Int × Int)
    (t : List (Int × Int)) (col : Int × Int × Int) (w r : Int) :
    (Character.mk x y o
        (a0 :: a1 :: a2 :: a3 :: a4 :: a5 :: a6 :: a7 :: a8 :: a9 :: a10 :: t)).draw
        col w r =
      some ([DrawCmd.line col (a0.1 + x, a0.2 + y) (a1.1 + x, a1.2 + y) w,
             DrawCmd.line col (a1.1 + x, a1.2 + y) (a2.1 + x, a2.2 + y) w,
             DrawCmd.line col (a3.1 + x, a3.2 + y) (a4.1 + x, a4.2 + y) w,
             DrawCmd.line col (a4.1 + x, a4.2 + y) (a5.1 + x, a5.2 + y) w,
             DrawCmd.line col (a0.1 + x, a0.2 + y) (a6.1 + x, a6.2 + y) w,
             DrawCmd.line col (a3.1 + x, a3.2 + y) (a6.1 + x, a6.2 + y) w,
             DrawCmd.line col (a6.1 + x, a6.2 + y) (a7.1 + x, a7.2 + y) w,
             DrawCmd.line col (a7.1 + x, a7.2 + y) (a8.1 + x, a8.2 + y) w,
             DrawCmd.line col (a6.1 + x, a6.2 + y) (a9.1 + x, a9.2 + y) w,
             DrawCmd.line col (a9.1 + x, a9.2 + y) (a10.1 + x, a10.2 + y) w]
        ++ ([(a0.1 + x, a0.2 + y), (a1.1 + x, a1.2 + y), (a2.1 + x, a2.2 + y),
             (a3.1 + x, a3.2 + y), (a4.1 + x, a4.2 + y), (a5.1 + x, a5.2 + y),
             (a6.1 + x, a6.2 + y), (a7.1 + x, a7.2 + y), (a8.1 + x, a8.2 + y),
             (a9.1 + x, a9.2 + y), (a10.1 + x, a10.2 + y)].map
              (fun p => DrawCmd.circle col p r))) := by
  have hguard : ¬((Character.mk x y o
      (a0 :: a1 :: a2 :: a3 :: a4 :: a5 :: a6 :: a7 :: a8 :: a9 :: a10 :: t)).body_points.isEmpty
      ∨ (Character.mk x y o
      (a0 :: a1 :: a2 :: a3 :: a4 :: a5 :: a6 :: a7 :: a8 :: a9 :: a10 :: t)).body_points.length < 11) := by
    simp [Character.mk]
  rw [Character.draw, if_neg hguard]
  rfl

/-- C2: for every Character and every angle, `rotate angle` sets the
orientation to `(old_orientation + angle) % 360`, and the result always
lies in `[0, 360)`, including for negative angles; in particular
`rotate 370` on orientation `0` yields orientation `10`. -/
theorem rotate_mod360_in_range (c : Character) (angle : Int) :
    (c.rotate angle).orientation = (c.orientation + angle) % 360 ∧
      0 ≤ (c.rotate angle).orientation ∧ (c.rotate angle).orientation < 360 ∧
      ((Character.init 0 0 0 []).rotate 370).orientation = 10 := by
  refine ⟨rfl, Int.emod_nonneg _ (by norm_num), Int.emod_lt_of_pos _ (by norm_num), by decide⟩

/-- C3: for every Character and every pair `(dx, dy)`, calling
`move dx dy` and then `get_position` returns the pre-call position plus
`(dx, dy)` componentwise; in particular `move 10 (-5)` from `(400, 300)`
yields `(410, 295)`. -/
theorem move_get_position (c : Character) (dx dy : Int) :
    (c.move dx dy).get_position = (c.get_position.1 + dx, c.get_position.2 + dy) ∧
      ((Character.init 400 300 0 []).move 10 (-5)).get_position = (410, 295) := by
  exact ⟨rfl, by decide⟩

/-- C7 counterexample: the claim quantifies over every Character, but the
constructor does not normalize its orientation argument; on a Character
constructed with orientation `400`, `rotate 360` changes the orientation
to `40`. -/
theorem rotate360_not_always_identity :
    ((Character.init 0 0 400 []).rotate 360).orientation = 40 ∧
      (Character.init 0 0 400 []).orientation = 400 ∧ (40 : Int) ≠ 400 := by
  decide

/-- C7 amended: for every Character whose stored orientation already lies
in `[0, 360)`, `rotate 360` leaves the orientation unchanged. -/
theorem rotate360_identity_of_normalized (c : Character)
    (h0 : 0 ≤ c.orientation) (h1 : c.orientation < 360) :
    (c.rotate 360).orientation = c.orientation := by
  show (c.orientation + 360) % 360 = c.orientation
  omega

/-- C7 witness: the amended theorem applied to a concrete normalized
Character. -/
theorem rotate360_identity_witness :
    0 ≤ (Character.init 400 300 10 []).orientation ∧
      (Character.init 400 300 10 []).orientation < 360 ∧
      ((Character.init 400 300 10 []).rotate 360).orientation =
        (Character.init 400 300 10 []).orientation :=
  ⟨by decide, by decide,
    rotate360_identity_of_normalized (Character.init 400 300 10 []) (by decide) (by decide)⟩

/-- C4: for every Character whose body-point list is empty or has fewer
than eleven entries, `draw` returns immediately with zero drawing calls
and no error (the result is `some []`, never `none`). -/
theorem draw_short_noop (c : Character) (h : c.body_points.length < 11)
    (col : Int × Int × Int) (w r : Int) :
    c.draw col w r = some [] := by
  rw [Character.draw, if_pos (Or.inr h)]

/-- C4 witness: a Character with an empty body-point list draws nothing. -/
theorem draw_short_noop_witness :
    (Character.init 400 300 0 []).body_points.length < 11 ∧
      (Character.init 400 300 0 []).draw (255, 255, 255) 2 4 = some [] :=
  ⟨by decide, draw_short_noop (Character.init 400 300 0 []) (by decide) (255, 255, 255) 2 4⟩

/-- C6 counterexample: the constructor stores its orientation argument
unnormalized, so a Character constructed with orientation `400` has a
stored orientation outside `[0, 360)`. -/
theorem orientation_not_normalized_at_init :
    (Character.init 0 0 400 []).orientation = 400 ∧
      ¬(0 ≤ (Character.init 0 0 400 []).orientation ∧
          (Character.init 0 0 400 []).orientation < 360) := by
  decide

/-- C6 amended: if a Character's stored orientation lies in `[0, 360)`
(the constructor establishes this only when its argument already does),
then it still lies in `[0, 360)` after `move`, after `rotate` with any
angle, and after `draw`; `rotate` re-establishes it from any prior
value. -/
theorem orientation_range_preserved (c : Character)
    (h0 : 0 ≤ c.orientation) (h1 : c.orientation < 360) :
    (∀ dx dy : Int, 0 ≤ (c.move dx dy).orientation ∧ (c.move dx dy).orientation < 360) ∧
      (∀ a : Int, 0 ≤ (c.rotate a).orientation ∧ (c.rotate a).orientation < 360) ∧
      (∀ (col : Int × Int × Int) (w r : Int),
        0 ≤ (c.drawS col w r).1.orientation ∧ (c.drawS col w r).1.orientation < 360) := by
  refine ⟨fun dx dy => ⟨h0, h1⟩, fun a => ⟨?_, ?_⟩, fun col w r => ⟨h0, h1⟩⟩
  · exact Int.emod_nonneg _ (by norm_num)
  · exact Int.emod_lt_of_pos _ (by norm_num)

/-- C6 witness: the amended invariant applied to a concrete normalized
Character and a concrete rotation. -/
theorem orientation_range_preserved_witness :
    0 ≤ (Character.init 400 300 10 mainBodyPoints).orientation ∧
      (Character.init 400 300 10 mainBodyPoints).orientation < 360 ∧
      (0 ≤ ((Character.init 400 300 10 mainBodyPoints).rotate 700).orientation ∧
        ((Character.init 400 300 10 mainBodyPoints).rotate 700).orientation < 360) :=
  ⟨by decide, by decide,
    (orientation_range_preserved (Character.init 400 300 10 mainBodyPoints)
      (by decide) (by decide)).2.1 700⟩

/-- C8: `move` mutates only the position, adding the deltas with no
bounds checking, and leaves orientation and body_points untouched;
`get_position` is the pure pair `(x, y)` with no effect on any field. -/
theorem move_frame_effect (c : Character) (dx dy : Int) :
    (c.move dx dy).orientation = c.orientation ∧
      (c.move dx dy).body_points = c.body_points ∧
      (c.move dx dy).x = c.x + dx ∧ (c.move dx dy).y = c.y + dy ∧
      c.get_position = (c.x, c.y) :=
  ⟨rfl, rfl, rfl, rfl, rfl⟩

/-- C9: `draw` only emits drawing calls; the Character's fields `x`, `y`,
`orientation` and `body_points` are unchanged by any draw call, whether
or not it renders. -/
theorem draw_frame_effect (c : Character) (col : Int × Int × Int) (w r : Int) :
    (c.drawS col w r).1.x = c.x ∧ (c.drawS col w r).1.y = c.y ∧
      (c.drawS col w r).1.orientation = c.orientation ∧
      (c.drawS col w r).1.body_points = c.body_points :=
  ⟨rfl, rfl, rfl, rfl⟩

/-- C1: for every Character with exactly eleven body-point offsets, `draw`
succeeds and renders each joint at the character's position plus the
corresponding offset, componentwise, for all eleven indices; the stored
orientation is never applied to the offsets (the trace is identical for
every orientation value). -/
theorem draw_joint_positions (x y o : Int) (bp : List (Int × Int))
    (col : Int × Int × Int) (w r : Int) (h : bp.length = 11) :
    ∃ tr, (Character.mk x y o bp).draw col w r = some tr ∧
      circleCenters tr = (List.range 11).map
        (fun i => ((bp.getD i (0, 0)).1 + x, (bp.getD i (0, 0)).2 + y)) ∧
      ∀ o2, (Character.mk x y o2 bp).draw col w r = some tr := by
  obtain ⟨a0, a1, a2, a3, a4, a5, a6, a7, a8, a9, a10, t, rfl⟩ :=
    List.exists_eleven_cons bp (by omega)
  have ht : t = [] := by simpa using h
  subst ht
  refine ⟨_, draw_cons_eleven x y o a0 a1 a2 a3 a4 a5 a6 a7 a8 a9 a10 [] col w r, ?_, ?_⟩
  · rfl
  · intro o2
    exact draw_cons_eleven x y o2 a0 a1 a2 a3 a4 a5 a6 a7 a8 a9 a10 [] col w r

/-- C1 witness: the theorem applied to the sample pose at `(400, 300)`. -/
theorem draw_joint_positions_witness :
    mainBodyPoints.length = 11 ∧
      ∃ tr, (Character.mk 400 300 0 mainBodyPoints).draw (255, 255, 255) 2 4 = some tr ∧
        circleCenters tr = (List.range 11).map
          (fun i => ((mainBodyPoints.getD i (0, 0)).1 + 400,
                     (mainBodyPoints.getD i (0, 0)).2 + 300)) ∧
        ∀ o2, (Character.mk 400 300 o2 mainBodyPoints).draw (255, 255, 255) 2 4 = some tr :=
  ⟨by decide, draw_joint_positions 400 300 0 mainBodyPoints (255, 255, 255) 2 4 (by decide)⟩

/-- C5: for every Character with exactly eleven body points, `draw`
issues exactly the trace the specification describes — ten line-draw
calls in the fixed topology and eleven circle-draw calls, one centered at
each absolute joint position — and every call uses the given color. -/
theorem draw_trace_topology (x y o : Int) (bp : List (Int × Int))
    (col : Int × Int × Int) (w r : Int) (h : bp.length = 11) :
    (Character.mk x y o bp).draw col w r =
        some (specDrawCalls (Character.mk x y o bp) col w r) ∧
      ((specDrawCalls (Character.mk x y o bp) col w r).filter
          (fun d => d.isLine)).length = 10 ∧
      ((specDrawCalls (Character.mk x y o bp) col w r).filter
          (fun d => d.isCircle)).length = 11 ∧
      ∀ d ∈ specDrawCalls (Character.mk x y o bp) col w r, d.colorOf = col := by
  obtain ⟨a0, a1, a2, a3, a4, a5, a6, a7, a8, a9, a10, t, rfl⟩ :=
    List.exists_eleven_cons bp (by omega)
  have ht : t = [] := by simpa using h
  subst ht
  refine ⟨?_, rfl, rfl, ?_⟩
  · rw [draw_cons_eleven]
    rfl
  · intro d hd
    simp only [specDrawCalls, specSegments, List.map, List.mem_append,
      List.mem_cons, List.not_mem_nil, or_false, List.mem_map,
      List.mem_range] at hd
    rcases hd with (rfl | rfl | rfl | rfl | rfl | rfl | rfl | rfl | rfl | rfl) |
      (rfl | rfl | rfl | rfl | rfl | rfl | rfl | rfl | rfl | rfl | rfl)
    all_goals rfl

/-- C5 witness: the scenario of §8 — the sample pose at `(400, 300)`,
orientation 0. -/
theorem draw_trace_topology_witness :
    mainBodyPoints.length = 11 ∧
      (Character.mk 400 300 0 mainBodyPoints).draw (255, 255, 255) 2 4 =
        some (specDrawCalls (Character.mk 400 300 0 mainBodyPoints) (255, 255, 255) 2 4) :=
  ⟨by decide,
    (draw_trace_topology 400 300 0 mainBodyPoints (255, 255, 255) 2 4 (by decide)).1⟩

/-- C10: for every Character with more than eleven body points, `draw`
does not fail and renders exactly as if only the first eleven offsets
were present; later entries are ignored entirely. -/
theorem draw_extra_points_ignored (x y o : Int) (bp : List (Int × Int))
    (col : Int × Int × Int) (w r : Int) (h : 11 < bp.length) :
    (Character.mk x y o bp).draw col w r =
        (Character.mk x y o (bp.take 11)).draw col w r ∧
      ((Character.mk x y o bp).draw col w r).isSome = true := by
  obtain ⟨a0, a1, a2, a3, a4, a5, a6, a7, a8, a9, a10, t, rfl⟩ :=
    List.exists_eleven_cons bp (by omega)
  constructor
  · rw [draw_cons_eleven]
    show _ = (Character.mk x y o
      (a0 :: a1 :: a2 :: a3 :: a4 :: a5 :: a6 :: a7 :: a8 :: a9 :: a10 :: [])).draw col w r
    rw [draw_cons_eleven]
  · rw [draw_cons_eleven]
    rfl

/-- C10 witness: the sample pose with an extra twelfth offset draws the
same trace as the sample pose alone. -/
theorem draw_extra_points_ignored_witness :
    11 < (mainBodyPoints ++ [(99, 99)]).length ∧
      ((Character.mk 400 300 0 (mainBodyPoints ++ [(99, 99)])).draw (255, 255, 255) 2 4 =
          (Character.mk 400 300 0 ((mainBodyPoints ++ [(99, 99)]).take 11)).draw
            (255, 255, 255) 2 4 ∧
        ((Character.mk 400 300 0 (mainBodyPoints ++ [(99, 99)])).draw
            (255, 255, 255) 2 4).isSome = true) :=
  ⟨by decide,
    draw_extra_points_ignored 400 300 0 (mainBodyPoints ++ [(99, 99)])
      (255, 255, 255) 2 4 (by decide)⟩
